import Mathlib

/-!
Verification of the polls application (`polls/views.py`, `polls/tests.py`).

The data model is the two-table relational schema of the application: a
`Question` row (primary key, text, publication timestamp) and a `Choice` row
(primary key, owning question, text, vote counter).  Timestamps are modelled
as integers (seconds); `timezone.now()` becomes an explicit `now : Int`
argument.  The backing database is a `Store` holding the two tables as lists;
each view becomes a pure function of the store (and a fresh store for the one
mutating view, `vote`).
-/

/-- A `Question` row: primary key `id`, `question_text`, publication
timestamp `pub_date` (integer seconds). -/
structure Question where
  id : Nat
  question_text : String
  pub_date : Int
deriving DecidableEq, Repr

/-- A `Choice` row: primary key `id`, foreign key `question_id` to its owning
`Question`, `choice_text`, and the vote counter `votes` (non-negative, so a
`Nat`). -/
structure Choice where
  id : Nat
  question_id : Nat
  choice_text : String
  votes : Nat
deriving DecidableEq, Repr

/-- The backing store: the `Question` table and the `Choice` table. -/
structure Store where
  questions : List Question
  choices : List Choice
deriving DecidableEq, Repr

/-- Descending publication order used by `order_by from views.py
(`order_by` with key `-pub_date`): `a` comes no later than `b` when the
publication timestamp of `b` is at most that of `a`. -/
def pubDateDesc (a b : Question) : Prop := b.pub_date ≤ a.pub_date

instance : DecidableRel pubDateDesc := fun a b => Int.decLe b.pub_date a.pub_date

instance : IsTotal Question pubDateDesc := ⟨fun a b => le_total b.pub_date a.pub_date⟩

instance : IsTrans Question pubDateDesc := ⟨fun _ _ _ h h2 => le_trans h2 h⟩

/-- `question.choice_set.all()` is truthy exactly when some `Choice` row has
this question as its owner. -/
def hasChoice (s : Store) (q : Question) : Bool :=
  s.choices.any (fun c => c.question_id = q.id)

/-- The first statement of `IndexView.get_queryset`:
`Question.objects.filter(pub_date__lte=timezone.now()).order_by(-pub_date)[:5]` —
the published questions, sorted descending by `pub_date`, truncated to five. -/
def top5_published (s : Store) (now : Int) : List Question :=
  (List.insertionSort pubDateDesc (s.questions.filter (fun q => q.pub_date ≤ now))).take 5

namespace IndexView

/-- `IndexView.get_queryset` from `views.py`: the five most recent published
questions, then the list comprehension keeping only those whose
`choice_set.all()` is nonempty. -/
def get_queryset (s : Store) (now : Int) : List Question :=
  (top5_published s now).filter (fun q => hasChoice s q)

end IndexView

namespace DetailView

/-- `DetailView.get_queryset` from `views.py`: excludes any questions that
are not published yet. -/
def get_queryset (s : Store) (now : Int) : List Question :=
  s.questions.filter (fun q => q.pub_date ≤ now)

end DetailView

namespace ResultsView

/-- `ResultsView.get_queryset` from `views.py`: excludes results of
unpublished questions. -/
def get_queryset (s : Store) (now : Int) : List Question :=
  s.questions.filter (fun q => q.pub_date ≤ now)

end ResultsView

/-- `get_object_or_404` specialised to a queryset of questions and a primary
key: `some` is the 200 rendering of the found object, `none` is the Http404
signal. -/
def get_object_or_404 (qs : List Question) (pk : Nat) : Option Question :=
  qs.find? (fun q => q.id = pk)

/-- The detail entry point: `DetailView` resolves its object with the
filtered queryset, so an unpublished or absent question yields `none`
(HTTP 404). -/
def detail (s : Store) (now : Int) (pk : Nat) : Option Question :=
  get_object_or_404 (DetailView.get_queryset s now) pk

/-- The results entry point, identical resolution to `detail`. -/
def results (s : Store) (now : Int) (pk : Nat) : Option Question :=
  get_object_or_404 (ResultsView.get_queryset s now) pk

/-- The response of the `vote` view: `notFound` is the Http404 of
`get_object_or_404`; `errorRedisplay q` is the 200 re-rendering of the detail
template for `q` with the user-facing error message saying no choice was
selected; `redirect qid` is the `HttpResponseRedirect` to
`reverse(polls:results)` for question `qid`. -/
inductive VoteResponse where
  | notFound : VoteResponse
  | errorRedisplay : Question → VoteResponse
  | redirect : Nat → VoteResponse
deriving DecidableEq, Repr

/-- `p.choice_set.get(pk=request.POST[choice])`: `none` models both the
`KeyError` (field absent from the POST data) and `Choice.DoesNotExist`
(no choice of this question has the submitted primary key). -/
def resolve_choice (s : Store) (p : Question) : Option Nat → Option Choice
  | none => none
  | some cid => s.choices.find? (fun c => c.question_id = p.id ∧ c.id = cid)

/-- `selected_choice.votes += 1` followed by `selected_choice.save()`: the
row whose primary key is that of the selected choice is written back with
its counter incremented. -/
def save_vote (s : Store) (c : Choice) : Store :=
  { s with
    choices := s.choices.map
      (fun c2 => if c2.id = c.id then { c2 with votes := c2.votes + 1 } else c2) }

/-- The `vote` view from `views.py`.  `choice_post` is the `choice` field of
the POST data (`none` when the field is missing).  Returns the response and
the store after the request. -/
def vote (s : Store) (choice_post : Option Nat) (question_id : Nat) :
    VoteResponse × Store :=
  match s.questions.find? (fun q => q.id = question_id) with
  | none => (VoteResponse.notFound, s)
  | some p =>
    match resolve_choice s p choice_post with
    | none => (VoteResponse.errorRedisplay p, s)
    | some selected_choice =>
      (VoteResponse.redirect p.id, save_vote s selected_choice)

/-- Modelled from the spec: `Question.was_published_recently` lives in
`polls/models.py`, which is not among the provided source files (only
`polls/tests.py` exercises it).  The spec defines the derived property as:
publication timestamp falls within the last 24 hours and is not in the
future.  24 hours is 86400 seconds. -/
def was_published_recently (q : Question) (now : Int) : Bool :=
  now - 86400 ≤ q.pub_date ∧ q.pub_date ≤ now

/-- The question listing as the sentence of the spec reads when its relative
clauses are both taken to restrict the set being truncated: the five most
recently published among the questions that are published AND have at least
one choice.  Written from the words of the spec, for comparison with
`IndexView.get_queryset`. -/
def spec_listing (s : Store) (now : Int) : List Question :=
  (List.insertionSort pubDateDesc
    (s.questions.filter (fun q => q.pub_date ≤ now ∧ hasChoice s q))).take 5

/-! Concrete rows and stores used by counterexamples and witnesses. -/

/-- A question with primary key `i`, published at time `i`. -/
def exQ (i : Nat) : Question := ⟨i, "Q", (i : Int)⟩

/-- A choice with primary key `i` owned by question `i`, zero votes. -/
def exC (i : Nat) : Choice := ⟨i, i, "C", 0⟩

/-- Six published questions (publication times 1..6); the most recent one,
`exQ 6`, has no choice, while `exQ 1` .. `exQ 5` have one choice each. -/
def exStore6 : Store :=
  ⟨[exQ 1, exQ 2, exQ 3, exQ 4, exQ 5, exQ 6],
   [exC 1, exC 2, exC 3, exC 4, exC 5]⟩

/-- A two-question store: question 1 published at time 1 with choices 1 and
2, question 9 future-dated (time 100) with choice 9. -/
def exStore2 : Store :=
  ⟨[⟨1, "past", 1⟩, ⟨9, "future", 100⟩],
   [⟨1, 1, "a", 0⟩, ⟨2, 1, "b", 3⟩, ⟨9, 9, "c", 0⟩]⟩

/-! Helper lemmas shared by the claim theorems. -/

/-- A list relates pointwise to its image under a map. -/
theorem forall2_map_self {α β : Type _} {r : α → β → Prop} (f : α → β) {l : List α}
    (h : ∀ x ∈ l, r x (f x)) : List.Forall₂ r l (l.map f) :=
  List.forall₂_map_right_iff.mpr (List.forall₂_same.mpr h)

/-- Everything the index queryset starts from is a published question of the
store. -/
theorem mem_of_mem_top5_published {s : Store} {now : Int} {q : Question}
    (h : q ∈ top5_published s now) : q ∈ s.questions ∧ q.pub_date ≤ now := by
  have h2 := List.mem_of_mem_take h
  rw [List.mem_insertionSort] at h2
  simpa [List.mem_filter] using h2

/-- The truncated sorted queryset is in descending publication order. -/
theorem pairwise_top5_published (s : Store) (now : Int) :
    List.Pairwise pubDateDesc (top5_published s now) :=
  List.Pairwise.sublist (List.take_sublist 5 _)
    (List.sorted_insertionSort pubDateDesc _)

/-- In a choice table with no duplicate primary keys, exactly one row carries
the primary key of a member row. -/
theorem countP_id_eq_one {l : List Choice} {ch : Choice}
    (hnodup : (l.map Choice.id).Nodup) (hm : ch ∈ l) :
    l.countP (fun c => c.id = ch.id) = 1 := by
  induction l with
  | nil => cases hm
  | cons a t ih =>
    rw [List.map_cons, List.nodup_cons] at hnodup
    rcases List.mem_cons.mp hm with rfl | hmt
    · have hz : t.countP (fun c => c.id = ch.id) = 0 := by
        rw [List.countP_eq_zero]
        intro b hb
        simp only [decide_eq_true_eq]
        intro hb2
        exact hnodup.1 (hb2 ▸ List.mem_map_of_mem Choice.id hb)
      simp [List.countP_cons, hz]
    · have hne : ¬(a.id = ch.id) := by
        intro h
        exact hnodup.1 (h ▸ List.mem_map_of_mem Choice.id hmt)
      rw [List.countP_cons]
      simp [hne, ih hnodup.2 hmt]

/-- C6: for every Question and current time `now`, "published recently" is
true iff the publication timestamp falls within the last 24 hours and is not
in the future: false strictly after `now`, false more than 24 hours before
`now`, true within the past 24 hours. -/
theorem C6_was_published_recently_window (q : Question) (now : Int) :
    (was_published_recently q now = true ↔
      now - 86400 ≤ q.pub_date ∧ q.pub_date ≤ now) ∧
    (now < q.pub_date → was_published_recently q now = false) ∧
    (q.pub_date < now - 86400 → was_published_recently q now = false) ∧
    (now - 86400 ≤ q.pub_date → q.pub_date ≤ now →
      was_published_recently q now = true) := by
  refine ⟨?_, ?_, ?_, ?_⟩ <;> simp [was_published_recently] <;> omega

/-- Witness for C6 at concrete inputs: question published at time 5 is not
recent at time 4 (future), not recent at time 100000 (older than a day),
recent at time 10. -/
theorem C6_witness :
    was_published_recently (exQ 5) 4 = false ∧
    was_published_recently (exQ 5) 100000 = false ∧
    was_published_recently (exQ 5) 10 = true :=
  ⟨(C6_was_published_recently_window (exQ 5) 4).2.1 (by decide),
   (C6_was_published_recently_window (exQ 5) 100000).2.2.1 (by decide),
   (C6_was_published_recently_window (exQ 5) 10).2.2.2 (by decide) (by decide)⟩

/-- C7: across every `vote` request — the only operation of the workflow that
returns a store — every vote counter is non-decreasing, each row either keeps
its counter or gains exactly 1, no choice row changes identity or owner, no
choice row is created or deleted, and the question table is untouched.
(The listing, detail and results operations are pure functions in this
embedding: they return values and no store at all.) -/
theorem C7_votes_monotone (s : Store) (c : Option Nat) (qid : Nat) :
    List.Forall₂ (fun before after =>
        before.votes ≤ after.votes ∧
        (after.votes = before.votes ∨ after.votes = before.votes + 1) ∧
        after.id = before.id ∧ after.question_id = before.question_id ∧
        after.choice_text = before.choice_text)
      s.choices ((vote s c qid).2.choices) ∧
    (vote s c qid).2.questions = s.questions ∧
    (vote s c qid).2.choices.length = s.choices.length := by
  have hrefl : ∀ (l : List Choice),
      List.Forall₂ (fun before after =>
        before.votes ≤ after.votes ∧
        (after.votes = before.votes ∨ after.votes = before.votes + 1) ∧
        after.id = before.id ∧ after.question_id = before.question_id ∧
        after.choice_text = before.choice_text) l l :=
    fun l => List.forall₂_same.mpr (fun x _ => ⟨le_refl _, Or.inl rfl, rfl, rfl, rfl⟩)
  cases hq : s.questions.find? (fun q => q.id = qid) with
  | none => exact ⟨by simp [vote, hq, hrefl s.choices], by simp [vote, hq]⟩
  | some p =>
    cases hc : resolve_choice s p c with
    | none => exact ⟨by simp [vote, hq, hc, hrefl s.choices], by simp [vote, hq, hc]⟩
    | some ch =>
      refine ⟨?_, by simp [vote, hq, hc, save_vote], ?_⟩
      · have : List.Forall₂ (fun before after =>
            before.votes ≤ after.votes ∧
            (after.votes = before.votes ∨ after.votes = before.votes + 1) ∧
            after.id = before.id ∧ after.question_id = before.question_id ∧
            after.choice_text = before.choice_text)
            s.choices (s.choices.map
              (fun c2 => if c2.id = ch.id then { c2 with votes := c2.votes + 1 } else c2)) := by
          refine forall2_map_self _ (fun x _ => ?_)
          by_cases hx : x.id = ch.id <;> simp [hx]
        simpa [vote, hq, hc, save_vote] using this
      · simp [vote, hq, hc, save_vote]

/-- C2: the detail and results lookups resolve against the published-only
queryset: the lookup succeeds iff a stored question with that primary key is
published; any returned question is that stored, published question; when
every question with that key is future-dated the result is `none` — the same
observable as a nonexistent key, so callers cannot distinguish the two. -/
theorem C2_detail_results_published_only (s : Store) (now : Int) (pk : Nat) :
    results s now pk = detail s now pk ∧
    ((detail s now pk).isSome ↔ ∃ q ∈ s.questions, q.id = pk ∧ q.pub_date ≤ now) ∧
    (∀ q, detail s now pk = some q →
      q ∈ s.questions ∧ q.id = pk ∧ q.pub_date ≤ now) ∧
    ((∀ q ∈ s.questions, q.id = pk → now < q.pub_date) → detail s now pk = none) := by
  refine ⟨rfl, ?_, ?_, ?_⟩
  · simp only [detail, DetailView.get_queryset, get_object_or_404, List.find?_isSome,
      List.mem_filter, decide_eq_true_eq]
    constructor
    · rintro ⟨q, ⟨hq, hpub⟩, hpk⟩
      exact ⟨q, hq, hpk, hpub⟩
    · rintro ⟨q, hq, hpk, hpub⟩
      exact ⟨q, ⟨hq, hpub⟩, hpk⟩
  · intro q hq
    have hm := List.mem_of_find?_eq_some hq
    have hp := List.find?_some hq
    simp only [DetailView.get_queryset, List.mem_filter, decide_eq_true_eq] at hm
    exact ⟨hm.1, by simpa using hp, hm.2⟩
  · intro h
    simp only [detail, DetailView.get_queryset, get_object_or_404, List.find?_eq_none,
      List.mem_filter, decide_eq_true_eq]
    rintro q ⟨hq, hpub⟩ hpk
    exact absurd hpub (not_le.mpr (h q hq hpk))

/-- Witness for C2: in the concrete two-question store at time 10, the
published question 1 is found and is the stored row, while the future-dated
question 9 yields the not-found observable. -/
theorem C2_witness :
    ((⟨1, "past", 1⟩ : Question) ∈ exStore2.questions ∧
      (⟨1, "past", 1⟩ : Question).id = 1 ∧
      (⟨1, "past", 1⟩ : Question).pub_date ≤ 10) ∧
    detail exStore2 10 9 = none :=
  ⟨(C2_detail_results_published_only exStore2 10 1).2.2.1 ⟨1, "past", 1⟩ rfl,
   (C2_detail_results_published_only exStore2 10 9).2.2.2 (by decide)⟩

/-- C3: when the question resolves but the submitted choice does not (field
missing, unknown primary key, or a choice of another question), `vote`
returns the error-annotated detail rendering of that question — not a server
error and not a 404 — and the store is returned unchanged, so every vote
counter is unchanged. -/
theorem C3_invalid_choice_no_mutation (s : Store) (c : Option Nat) (qid : Nat)
    (p : Question)
    (hp : s.questions.find? (fun q => q.id = qid) = some p)
    (hc : resolve_choice s p c = none) :
    vote s c qid = (VoteResponse.errorRedisplay p, s) := by
  simp [vote, hp, hc]

/-- Witness for C3: a POST to question 1 with the choice field missing
re-renders the detail view of question 1 and leaves the store untouched. -/
theorem C3_witness :
    vote exStore2 none 1 = (VoteResponse.errorRedisplay ⟨1, "past", 1⟩, exStore2) :=
  C3_invalid_choice_no_mutation exStore2 none 1 ⟨1, "past", 1⟩ rfl rfl

/-- C5: `vote` answers `notFound` exactly when no stored question has the
requested primary key — the publication window is never consulted — and a
future-dated question (`now` strictly before its `pub_date`) with a valid
choice still accepts the vote: redirect plus persisted increment. -/
theorem C5_vote_no_publication_check (s : Store) (qid : Nat) (now : Int) :
    (∀ c, (vote s c qid).1 = VoteResponse.notFound ↔ ∀ q ∈ s.questions, q.id ≠ qid) ∧
    (∀ (p : Question) (cid : Nat) (ch : Choice),
      s.questions.find? (fun q => q.id = qid) = some p →
      resolve_choice s p (some cid) = some ch → now < p.pub_date →
      vote s (some cid) qid = (VoteResponse.redirect p.id, save_vote s ch)) := by
  constructor
  · intro c
    cases hq : s.questions.find? (fun q => q.id = qid) with
    | none =>
      refine iff_of_true (by simp [vote, hq]) ?_
      have h := List.find?_eq_none.mp hq
      simpa using h
    | some p =>
      refine iff_of_false ?_ ?_
      · cases hc : resolve_choice s p c <;> simp [vote, hq, hc]
      · intro hall
        exact hall p (List.mem_of_find?_eq_some hq) (by simpa using List.find?_some hq)
  · intro p cid ch hp hc _
    simp [vote, hp, hc]

/-- Witness for C5: at time 0, question 9 (published at time 100, so
future-dated) still accepts a vote for its choice 9. -/
theorem C5_witness :
    vote exStore2 (some 9) 9 =
      (VoteResponse.redirect 9, save_vote exStore2 ⟨9, 9, "c", 0⟩) :=
  (C5_vote_no_publication_check exStore2 9 0).2 ⟨9, "future", 100⟩ 9 ⟨9, 9, "c", 0⟩
    rfl rfl (by decide)

/-- C4: a vote whose submitted choice resolves (it belongs to the resolved
question) redirects to the results entry point of that question, leaves the
question table unchanged, rewrites the choice row carrying the selected
primary key — of which, the keys being duplicate-free, there is exactly one,
namely the selected choice itself — with its counter incremented by exactly
1, and leaves every other choice row identical. -/
theorem C4_valid_vote_increments_exactly_one (s : Store) (cid qid : Nat)
    (p : Question) (ch : Choice)
    (hp : s.questions.find? (fun q => q.id = qid) = some p)
    (hc : resolve_choice s p (some cid) = some ch)
    (hnodup : (s.choices.map Choice.id).Nodup) :
    (vote s (some cid) qid).1 = VoteResponse.redirect p.id ∧
    (vote s (some cid) qid).2.questions = s.questions ∧
    List.Forall₂ (fun before after =>
        (before.id = ch.id → after = { before with votes := before.votes + 1 }) ∧
        (before.id ≠ ch.id → after = before))
      s.choices ((vote s (some cid) qid).2.choices) ∧
    s.choices.countP (fun c => c.id = ch.id) = 1 ∧
    ch ∈ s.choices ∧ ch.question_id = p.id ∧ ch.id = cid := by
  have hc2 : s.choices.find? (fun c => c.question_id = p.id ∧ c.id = cid) = some ch := hc
  have hm : ch ∈ s.choices := List.mem_of_find?_eq_some hc2
  have hpred : ch.question_id = p.id ∧ ch.id = cid := by
    simpa using List.find?_some hc2
  have hv : vote s (some cid) qid = (VoteResponse.redirect p.id, save_vote s ch) := by
    simp [vote, hp, hc]
  rw [hv]
  refine ⟨rfl, rfl, ?_, countP_id_eq_one hnodup hm, hm, hpred⟩
  simp only [save_vote]
  refine forall2_map_self _ (fun x _ => ?_)
  by_cases hx : x.id = ch.id <;> simp [hx]

/-- Witness for C4: a vote for choice 2 of question 1 redirects to the
results of question 1, and choice 2 is the single row with its key. -/
theorem C4_witness :
    (vote exStore2 (some 2) 1).1 = VoteResponse.redirect 1 ∧
    exStore2.choices.countP (fun c => c.id = 2) = 1 :=
  ⟨(C4_valid_vote_increments_exactly_one exStore2 2 1 ⟨1, "past", 1⟩ ⟨2, 1, "b", 3⟩
      rfl rfl (by decide)).1,
   (C4_valid_vote_increments_exactly_one exStore2 2 1 ⟨1, "past", 1⟩ ⟨2, 1, "b", 3⟩
      rfl rfl (by decide)).2.2.2.1⟩

/-- C9: on a stored but future-dated question, a vote with a missing or
unresolvable choice answers with the error-annotated detail rendering of that
unpublished question (a 200, store untouched), while a GET of the detail view
for the very same identifier answers `none` (404) — the vote entry point
exposes the unpublished content. -/
theorem C9_vote_exposes_unpublished (s : Store) (now : Int) (qid : Nat)
    (c : Option Nat) (p : Question)
    (hp : s.questions.find? (fun q => q.id = qid) = some p)
    (hfut : ∀ q ∈ s.questions, q.id = qid → now < q.pub_date)
    (hc : resolve_choice s p c = none) :
    vote s c qid = (VoteResponse.errorRedisplay p, s) ∧
    detail s now qid = none := by
  refine ⟨by simp [vote, hp, hc], ?_⟩
  simp only [detail, DetailView.get_queryset, get_object_or_404, List.find?_eq_none,
    List.mem_filter, decide_eq_true_eq]
  rintro q ⟨hq, hpub⟩ hpk
  exact absurd hpub (not_le.mpr (hfut q hq hpk))

/-- Witness for C9: at time 10, a choice-less POST to the future-dated
question 9 re-renders its detail view with the error, while the GET of the
same detail URL is a 404. -/
theorem C9_witness :
    vote exStore2 none 9 = (VoteResponse.errorRedisplay ⟨9, "future", 100⟩, exStore2) ∧
    detail exStore2 10 9 = none :=
  C9_vote_exposes_unpublished exStore2 10 9 none ⟨9, "future", 100⟩
    rfl (by decide) rfl

/-- C1 counterexample: with six published questions where the most recent one
(`exQ 6`) has no choice and the five older ones each have a choice, the
listing returns only four questions, although five published questions with a
choice exist; in particular `exQ 1` — published, with a choice, and among the
five most recent such questions — is missing, so the listing is not the five
most-recently-published questions that are published and have a choice. -/
theorem C1_counterexample :
    IndexView.get_queryset exStore6 10 ≠ spec_listing exStore6 10 ∧
    exQ 1 ∈ spec_listing exStore6 10 ∧
    (exQ 1).pub_date ≤ 10 ∧ hasChoice exStore6 (exQ 1) = true ∧
    exQ 1 ∉ IndexView.get_queryset exStore6 10 ∧
    (spec_listing exStore6 10).length = 5 ∧
    (IndexView.get_queryset exStore6 10).length = 4 := by decide

/-- C1 as amended: the listing is ordered descending by publication
timestamp; every listed question is a stored, published question with at
least one choice; of the five most-recently-published questions, exactly
those with at least one choice are listed (the five-question truncation
precedes the choice filter); no choice-less question is ever listed.  The
operation computes a value from the store and the current time and performs
no store mutation. -/
theorem C1_amended_listing (s : Store) (now : Int) :
    List.Pairwise pubDateDesc (IndexView.get_queryset s now) ∧
    (∀ q ∈ IndexView.get_queryset s now,
      q ∈ s.questions ∧ q.pub_date ≤ now ∧ hasChoice s q = true) ∧
    (∀ q ∈ top5_published s now, hasChoice s q = true →
      q ∈ IndexView.get_queryset s now) ∧
    (∀ q, hasChoice s q = false → q ∉ IndexView.get_queryset s now) := by
  refine ⟨?_, ?_, ?_, ?_⟩
  · exact List.Pairwise.sublist (List.filter_sublist _) (pairwise_top5_published s now)
  · intro q hq
    rw [IndexView.get_queryset, List.mem_filter] at hq
    have h2 := mem_of_mem_top5_published hq.1
    exact ⟨h2.1, h2.2, hq.2⟩
  · intro q hq hch
    rw [IndexView.get_queryset, List.mem_filter]
    exact ⟨hq, hch⟩
  · intro q hch hq
    rw [IndexView.get_queryset, List.mem_filter] at hq
    exact absurd hq.2 (by simp [hch])

/-- Witness for C1 as amended: in the six-question store, `exQ 5` (recent,
with a choice) is listed and the choice-less `exQ 6` is not. -/
theorem C1_witness :
    exQ 5 ∈ IndexView.get_queryset exStore6 10 ∧
    exQ 6 ∉ IndexView.get_queryset exStore6 10 :=
  ⟨(C1_amended_listing exStore6 10).2.2.1 (exQ 5) (by decide) (by decide),
   (C1_amended_listing exStore6 10).2.2.2 (exQ 6) (by decide)⟩

/-- C10: the listing is always an order-preserving subsequence of the five
most-recently-published published questions, hence of length at most five;
and it can hold fewer than five questions with choices even though five
published questions with a choice are stored, because the truncation to five
happens before the has-a-choice filter. -/
theorem C10_truncation_precedes_choice_filter :
    (∀ (s : Store) (now : Int),
      List.Sublist (IndexView.get_queryset s now) (top5_published s now) ∧
      (IndexView.get_queryset s now).length ≤ 5) ∧
    (IndexView.get_queryset exStore6 10).length = 4 ∧
    (exStore6.questions.filter
      (fun q => q.pub_date ≤ (10 : Int) ∧ hasChoice exStore6 q)).length = 5 := by
  refine ⟨fun s now => ⟨List.filter_sublist _, ?_⟩, by decide, by decide⟩
  exact le_trans (List.Sublist.length_le (List.filter_sublist _)) (List.length_take_le 5 _)
